import Mathlib

/-!
Shallow embedding of the `SeoAnalyzer` service of the ai-seo-tool repository
(`server/services/seo-analyzer.ts`) together with the record shapes it
consumes from `shared/schema.ts`.

Modelling conventions: JavaScript strings are Lean `String`s and the scoring
code works over their `List Char` data; JavaScript numbers that only ever
hold integers are `Nat` / `Int`; the overall-score expression
`Math.round((totalScore / 1200) * 100)` is modelled bit-exactly in IEEE-754
binary64 (see `jsRoundF64`), since its float rounding is observable at a few
totals; the remaining float division feeding a `Math.round` (the
title-relevance ratio of `assessContentClarity`) is modelled with exact
rational arithmetic.
JavaScript regular-expression `match(...).length` counts are modelled by
explicit left-to-right non-overlapping scanners, one per regex literal.
-/

/-! ## Data model (`shared/schema.ts`) -/

/-- One entry of `WebsiteData.headings`. -/
structure PageHeading where
  level : Nat
  text : String
  deriving DecidableEq

/-- One entry of `WebsiteData.images`. -/
structure PageImage where
  src : String
  alt : String
  hasAlt : Bool
  deriving DecidableEq

/-- One entry of `WebsiteData.links`. -/
structure PageLink where
  href : String
  text : String
  isInternal : Bool
  deriving DecidableEq

/-- The normalized page record (`WebsiteData` in `shared/schema.ts`),
the sole input of every analyzer. -/
structure WebsiteData where
  title : String
  metaDescription : String
  headings : List PageHeading
  images : List PageImage
  links : List PageLink
  content : String
  hasSchema : Bool
  schemaTypes : List String
  loadTime : Nat
  wordCount : Nat
  deriving DecidableEq

/-- `'success' | 'warning' | 'error'` of `TraditionalSeoResult` / `GeoResult`. -/
inductive ResultType where
  | success
  | warning
  | error
  deriving DecidableEq

/-- One per-check entry of `analyzeTraditionalSeo`'s `results` array.
`metrics` values are rendered to strings. -/
structure TraditionalSeoResult where
  type : ResultType
  title : String
  description : String
  details : Option String := none
  metrics : List (String × String) := []
  deriving DecidableEq

/-- One per-check entry of `analyzeGeo`'s `results` array. -/
structure GeoResult where
  type : ResultType
  title : String
  description : String
  deriving DecidableEq

/-- `'pass' | 'warning' | 'fail'` of an AI-visibility factor. -/
inductive FactorStatus where
  | pass
  | warning
  | fail
  deriving DecidableEq, Inhabited

/-- One of the 12 factor entries of `analyzeAiPlatformVisibility`. -/
structure FactorResult where
  factor : String
  score : Int
  description : String
  status : FactorStatus
  deriving DecidableEq, Inhabited

/-- `'high' | 'medium' | 'low'` priority / impact labels. -/
inductive Priority where
  | high
  | medium
  | low
  deriving DecidableEq

/-- One entry of the AI-visibility `recommendations` array. -/
structure Recommendation where
  priority : Priority
  action : String
  description : String
  impact : String
  deriving DecidableEq

/-- The aggregate returned by `analyzeAiPlatformVisibility`
(`AiPlatformVisibility` in `shared/schema.ts`). -/
structure AiVisibilityAssessment where
  overallScore : Int
  summary : String
  factors : List FactorResult
  recommendations : List Recommendation
  deriving DecidableEq

/-- The two stored `AuditReport` fields that `compareWebsites` reads. -/
structure ReportScores where
  seoScore : Int
  aiScore : Int
  deriving DecidableEq

/-- One entry of the comparator's `keyDifferences` array.  `category` is one
of the string constants `'seo' | 'ai' | 'content' | 'visibility'`. -/
structure KeyDifference where
  category : String
  aspect : String
  url1Value : String
  url2Value : String
  recommendation : String
  deriving DecidableEq

/-- The `differences` object returned by `compareWebsites`. -/
structure ComparisonOutput where
  seoScoreDiff : Int
  aiScoreDiff : Int
  aiVisibilityDiff : Int
  betterPerformer : String
  keyDifferences : List KeyDifference
  deriving DecidableEq

/-- One entry of `ContentSuggestions.blogTitles`. -/
structure BlogTitle where
  title : String
  target : String
  deriving DecidableEq

/-- One entry of `ContentSuggestions.faqs`. -/
structure FaqEntry where
  question : String
  answer : String
  deriving DecidableEq

/-- `'low' | 'medium' | 'high'` platform-visibility rating. -/
inductive VisLevel where
  | low
  | medium
  | high
  deriving DecidableEq

/-- The `ContentSuggestions.aiVisibility` platform map. -/
structure AiVisibilityLevels where
  chatgpt : VisLevel
  perplexity : VisLevel
  claude : VisLevel
  bard : VisLevel
  deriving DecidableEq

/-- One entry of `ContentSuggestions.aiImprovements`. -/
structure AiImprovement where
  action : String
  description : String
  impact : Priority
  priority : Nat
  deriving DecidableEq

/-- The `ContentSuggestions` aggregate of `shared/schema.ts`. -/
structure ContentSuggestions where
  missingKeywords : List String
  blogTitles : List BlogTitle
  contentStructure : List String
  faqs : List FaqEntry
  aiVisibility : AiVisibilityLevels
  aiImprovements : List AiImprovement
  deriving DecidableEq

/-! ## String / scanning helpers

Each helper models one JavaScript string or regex operation used by the
analyzer.  All are structurally recursive so that concrete inputs evaluate
inside the kernel. -/

/-- JavaScript `Math.round` (round half toward +∞) on an exact rational. -/
def jsRound (q : ℚ) : ℤ := ⌊q + 1/2⌋

/-- `Math.round` of a quantity that is nonnegative at its use site. -/
def natRound (q : ℚ) : ℕ := (jsRound q).toNat

/-- Round-to-nearest, ties-to-even, of the exact quotient `n / d` to an
integer (the significand rounding step of an IEEE-754 operation). -/
def roundHalfEven (n d : ℕ) : ℕ :=
  let m0 := n / d
  let r := n % d
  if 2 * r < d then m0
  else if d < 2 * r then m0 + 1
  else if m0 % 2 = 0 then m0 else m0 + 1

/-- Doubles `n` until it reaches `lo`, returning the scaled value and the
number of doublings (fuel-driven; one step per doubling). -/
def f64Up : ℕ → ℕ → ℕ → ℕ × ℕ
  | 0, n, _ => (n, 0)
  | fuel + 1, n, lo =>
    if n < lo then
      let r := f64Up fuel (2 * n) lo
      (r.1, r.2 + 1)
    else (n, 0)

/-- Doubles `d` until `n / d` drops below `2 ^ 53`, returning the scaled
denominator and the number of doublings. -/
def f64Down : ℕ → ℕ → ℕ → ℕ × ℕ
  | 0, _, d => (d, 0)
  | fuel + 1, n, d =>
    if d * 9007199254740992 ≤ n then
      let r := f64Down fuel n (2 * d)
      (r.1, r.2 + 1)
    else (d, 0)

/-- The IEEE-754 binary64 value nearest to `n / d` (`d ≠ 0`), as an exact
numerator/denominator pair: the quotient is scaled into the significand
range `[2 ^ 52, 2 ^ 53)` (the literals are `2 ^ 52` and `2 ^ 53`), its
significand is rounded to nearest, ties to even, and the scaling is undone
exactly.  The fuel bounds the scaling, which is ample for every quantity the
analyzer produces; values this small are in binary64's normal range, so no
overflow/underflow handling is needed. -/
def f64Near (n d : ℕ) : ℕ × ℕ :=
  if n = 0 then (0, 1)
  else
    let up := f64Up 1200 n (d * 4503599627370496)
    let down := f64Down 1200 up.1 d
    let m := roundHalfEven up.1 down.1
    (m * 2 ^ down.2, 2 ^ up.2)

/-- `Math.round((t / 1200) * 100)` evaluated as JavaScript does: `t`, `1200`
and `100` are exactly representable doubles, the division and the
multiplication each round their exact result to binary64
(round-to-nearest, ties-to-even), and `Math.round` then rounds the exact
value of the resulting double half toward `+∞`. -/
def jsRoundF64 (t : ℤ) : ℤ :=
  let s1 := f64Near t.natAbs 1200
  let s2 := f64Near (s1.1 * 100) s1.2
  let num : ℤ := if t < 0 then -(s2.1 : ℤ) else (s2.1 : ℤ)
  Int.fdiv (2 * num + (s2.2 : ℤ)) (2 * (s2.2 : ℤ))

/-- JavaScript `\s` whitespace test (restricted to the ASCII whitespace that
the analyzer's inputs contain). -/
def isWs (c : Char) : Bool := c.isWhitespace

/-- JavaScript `\w` word character: `[A-Za-z0-9_]`. -/
def isWordChar (c : Char) : Bool := c.isAlphanum || c = '_'

/-- `[A-Z]`. -/
def isUpperAZ (c : Char) : Bool := 'A' ≤ c && c ≤ 'Z'

/-- `[a-z]`. -/
def isLowerAZ (c : Char) : Bool := 'a' ≤ c && c ≤ 'z'

/-- Lowercasing of `String.data`, i.e. JavaScript `toLowerCase()` for the
ASCII text the heuristics look for. -/
def lowerL (l : List Char) : List Char := l.map Char.toLower

/-- `hay.includes(needle)` where `hay` is already a character list. -/
def containsL (hay : List Char) (needle : String) : Bool :=
  hay.tails.any (fun t => needle.data.isPrefixOf t)

/-- `hay.includes(needle)` on JavaScript strings. -/
def strContains (hay needle : String) : Bool :=
  containsL hay.data needle

/-- `s.startsWith(p)`. -/
def strStarts (s p : String) : Bool :=
  p.data.isPrefixOf s.data

/-- Fuel-driven regex-count scanner: `m` inspects a suffix and, on a match
starting at its head, returns how many characters beyond the head the match
consumes; scanning resumes after the whole match, mirroring JavaScript
global-regex semantics.  One unit of fuel per character suffices because
every step consumes at least one character. -/
def scanCountAux (m : List Char → Option Nat) : Nat → List Char → Nat
  | 0, _ => 0
  | _ + 1, [] => 0
  | fuel + 1, c :: rest =>
    match m (c :: rest) with
    | some extra => scanCountAux m fuel (rest.drop extra) + 1
    | none => scanCountAux m fuel rest

/-- Number of non-overlapping matches of `m` in `l`
(JavaScript `(str.match(re) || []).length` for a global regex `re`). -/
def scanCount (m : List Char → Option Nat) (l : List Char) : Nat :=
  scanCountAux m l.length l

/-- Non-overlapping occurrences of the literal `needle`
(`str.match(new RegExp(needle, 'g'))` for a plain-text needle). -/
def countSub (needle : String) (hay : List Char) : Nat :=
  scanCount
    (fun l =>
      if needle.data != [] && needle.data.isPrefixOf l then
        some (needle.data.length - 1)
      else none)
    hay

/-- Index of the first occurrence of `needle` in a character list (used for
the lazy closers of `.*?`-style patterns). -/
def idxOfSub (needle : List Char) : List Char → Option Nat
  | [] => none
  | c :: rest =>
    if needle.isPrefixOf (c :: rest) then some 0
    else (idxOfSub needle rest).map (· + 1)

/-- Fuel-driven worker for `splitOnL`. -/
def splitOnLAux (sep : List Char) : Nat → List Char → List Char → List (List Char)
  | 0, acc, l => [acc.reverse ++ l]
  | _ + 1, acc, [] => [acc.reverse]
  | fuel + 1, acc, c :: rest =>
    if sep.isPrefixOf (c :: rest) then
      acc.reverse :: splitOnLAux sep fuel [] (rest.drop (sep.length - 1))
    else
      splitOnLAux sep fuel (c :: acc) rest

/-- JavaScript `str.split(sep)` for a nonempty literal separator. -/
def splitOnL (sep : String) (l : List Char) : List (List Char) :=
  splitOnLAux sep.data l.length [] l

/-- JavaScript `str.split(re)` for a character-class regex such as
`/[.!?]+/`: splits at maximal runs of delimiter characters, keeping the
(possibly empty) pieces before and after boundary runs. -/
def splitRuns (isDelim : Char → Bool) : List Char → List (List Char)
  | [] => [[]]
  | c :: rest =>
    let r := splitRuns isDelim rest
    if isDelim c then
      match rest with
      | c2 :: _ => if isDelim c2 then r else [] :: r
      | [] => [] :: r
    else
      match r with
      | h :: t => (c :: h) :: t
      | [] => [[c]]

/-- JavaScript `str.trim()`. -/
def trimL (l : List Char) : List Char :=
  ((l.dropWhile isWs).reverse.dropWhile isWs).reverse

/-- Maximal `\w+` runs, i.e. JavaScript `str.match(/\b\w+\b/g) || []`. -/
def wordRuns (l : List Char) : List (List Char) :=
  (splitRuns (fun c => !isWordChar c) l).filter (fun w => !w.isEmpty)

/-- Counts the lines (pieces of a `\n` split) satisfying `p`; `p` also
receives whether the line was followed by a newline, which stands in for the
trailing `\s` that a `/^.../gm` pattern may match. -/
def countLines (p : List Char → Bool → Bool) : List (List Char) → Nat
  | [] => 0
  | [l] => if p l false then 1 else 0
  | l :: ls => (if p l true then 1 else 0) + countLines p ls

/-- The backtick character. -/
def btChar : Char := Char.ofNat 96

/-! ## Per-regex matchers (each models one regex literal of the source) -/

/-- `/[c₁c₂…]\s/g`-style matcher: one of the given characters followed by a
whitespace character. -/
def matchCharWs (cs : List Char) : List Char → Option Nat
  | c :: d :: _ => if cs.contains c && isWs d then some 1 else none
  | _ => none

/-- `/\d+\.\s/g`. -/
def matchNumDotWs (l : List Char) : Option Nat :=
  let ds := l.takeWhile Char.isDigit
  if ds.isEmpty then none
  else
    match l.drop ds.length with
    | '.' :: w :: _ => if isWs w then some (ds.length + 1) else none
    | _ => none

/-- `/\*\*.*?\*\*/g` (bold text; `.` does not cross a newline). -/
def matchBold : List Char → Option Nat
  | '*' :: '*' :: rest =>
    let seg := rest.takeWhile (fun c => c ≠ '\n')
    match idxOfSub ['*', '*'] seg with
    | some i => some (i + 3)
    | none => none
  | _ => none

/-- `/\*.*?\*/g` (italic text). -/
def matchItalic : List Char → Option Nat
  | '*' :: rest =>
    let seg := rest.takeWhile (fun c => c ≠ '\n')
    match idxOfSub ['*'] seg with
    | some i => some (i + 1)
    | none => none
  | _ => none

/-- `/:\s*$/gm`: a colon followed by nothing but whitespace up to the end of
its line. -/
def matchColonEol : List Char → Option Nat
  | ':' :: rest =>
    let seg := rest.takeWhile (fun c => c ≠ '\n')
    if seg.all isWs then some seg.length else none
  | _ => none

/-- `/^\s*[…]\s/gm` line test: optional leading whitespace, a character from
`bullets`, then whitespace (`hasNl` supplies the newline that terminated the
line, which `\s` may match). -/
def lineBulletStart (bullets : List Char) (l : List Char) (hasNl : Bool) : Bool :=
  match l.dropWhile isWs with
  | b :: w :: _ => bullets.contains b && isWs w
  | [b] => bullets.contains b && hasNl
  | [] => false

/-- `/^\s*\d+\.\s/gm` line test. -/
def lineNumberedStart (l : List Char) (hasNl : Bool) : Bool :=
  let t := l.dropWhile isWs
  let ds := t.takeWhile Char.isDigit
  !ds.isEmpty &&
    (match t.drop ds.length with
     | '.' :: w :: _ => isWs w
     | ['.'] => hasNl
     | _ => false)

/-- `/\d+%/g`. -/
def matchPercent (l : List Char) : Option Nat :=
  let ds := l.takeWhile Char.isDigit
  if ds.isEmpty then none
  else
    match l.drop ds.length with
    | '%' :: _ => some ds.length
    | _ => none

/-- Length consumed by `(?:,\d{3})*`. -/
def commaGroups : List Char → Nat
  | ',' :: a :: b :: c :: rest =>
    if a.isDigit && b.isDigit && c.isDigit then 4 + commaGroups rest else 0
  | _ => 0

/-- `/\$\d+(?:,\d{3})*/g`. -/
def matchCurrency : List Char → Option Nat
  | '$' :: rest =>
    let ds := rest.takeWhile Char.isDigit
    if ds.isEmpty then none
    else some (ds.length + commaGroups (rest.drop ds.length))
  | _ => none

/-- `/\d+,\d{3}/g`. -/
def matchCommaNum (l : List Char) : Option Nat :=
  let ds := l.takeWhile Char.isDigit
  if ds.isEmpty then none
  else
    match l.drop ds.length with
    | ',' :: a :: b :: c :: _ =>
      if a.isDigit && b.isDigit && c.isDigit then some (ds.length + 3) else none
    | _ => none

/-- `/\d+\.\d+/g`. -/
def matchDecimal (l : List Char) : Option Nat :=
  let ds := l.takeWhile Char.isDigit
  if ds.isEmpty then none
  else
    match l.drop ds.length with
    | '.' :: rest2 =>
      let ds2 := rest2.takeWhile Char.isDigit
      if ds2.isEmpty then none else some (ds.length + ds2.length)
    | _ => none

/-- Length of the first of the given `(keyword, optional-plural-s)`
alternatives matching at `r`, if any. -/
def kwLenAt : List (String × Bool) → List Char → Option Nat
  | [], _ => none
  | (k, opt) :: ks, r =>
    if k.data.isPrefixOf r then
      let n := k.data.length
      some
        (if opt && (match r.drop n with | 's' :: _ => true | _ => false) then
          n + 1
        else n)
    else kwLenAt ks r

/-- `/\d+\s?(?:kw₁|kw₂|…)/gi` (run on lowercased text): digits, an optional
single whitespace, then one of the keywords (optionally pluralized). -/
def matchNumUnit (kws : List (String × Bool)) (l : List Char) : Option Nat :=
  let ds := l.takeWhile Char.isDigit
  if ds.isEmpty then none
  else
    match l.drop ds.length with
    | w :: rest2 =>
      if isWs w then
        match kwLenAt kws rest2 with
        | some n => some (ds.length + n)
        | none => (kwLenAt kws (w :: rest2)).map (fun n => ds.length + n - 1)
      else (kwLenAt kws (w :: rest2)).map (fun n => ds.length + n - 1)
    | [] => none

/-- `/vs\.?\s/gi` (run on lowercased text). -/
def matchVs : List Char → Option Nat
  | 'v' :: 's' :: rest =>
    (match rest with
     | '.' :: w :: _ => if isWs w then some 3 else none
     | w :: _ => if isWs w then some 2 else none
     | [] => none)
  | _ => none

/-- Inline code: a backtick, one or more non-backticks, a backtick. -/
def matchInlineCode : List Char → Option Nat
  | c :: rest =>
    if c = btChar then
      let seg := rest.takeWhile (fun x => x ≠ btChar)
      if seg.isEmpty then none
      else
        match rest.drop seg.length with
        | d :: _ => if d = btChar then some (seg.length + 1) else none
        | [] => none
    else none
  | [] => none

/-- Fenced code block: three backticks, any text (lazily), three backticks. -/
def matchCodeBlock : List Char → Option Nat
  | a :: b :: c :: rest =>
    if a = btChar && b = btChar && c = btChar then
      match idxOfSub [btChar, btChar, btChar] rest with
      | some i => some (i + 5)
      | none => none
    else none
  | _ => none

/-- `/<[^>]+>/g` (HTML-like tags). -/
def matchHtmlTag : List Char → Option Nat
  | '<' :: rest =>
    let seg := rest.takeWhile (fun c => c ≠ '>')
    if seg.isEmpty then none
    else
      match rest.drop seg.length with
      | '>' :: _ => some (seg.length + 1)
      | _ => none
  | _ => none

/-- Tail of `/\b[A-Z][a-z]+ [A-Z][a-z]+\b/` after its leading capital. -/
def properNounTail (rest : List Char) : Bool :=
  let l1 := rest.takeWhile isLowerAZ
  !l1.isEmpty &&
    (match rest.drop l1.length with
     | ' ' :: u :: r2 =>
       isUpperAZ u &&
         (let l2 := r2.takeWhile isLowerAZ
          !l2.isEmpty &&
            (match r2.drop l2.length with
             | [] => true
             | d :: _ => !isWordChar d))
     | _ => false)

/-- Search loop for the capitalized-bigram regex; `prevWord` tracks whether
the previous character was a word character (for the leading `\b`). -/
def properNounSearch : Bool → List Char → Bool
  | _, [] => false
  | prevWord, c :: rest =>
    (!prevWord && isUpperAZ c && properNounTail rest) ||
      properNounSearch (isWordChar c) rest

/-- `/\b[A-Z][a-z]+ [A-Z][a-z]+\b/.test(content)` — the analyzer's basic
proper-noun detection. -/
def hasProperNounPair (s : String) : Bool := properNounSearch false s.data

/-! ## `analyzeTraditionalSeo` -/

/-- Return shape of `analyzeTraditionalSeo`. -/
structure TradOut where
  results : List TraditionalSeoResult
  score : Nat
  deriving DecidableEq

/-- `analyzeTraditionalSeo(data)`: six fixed checks in source order, each
`let`-block below being one `if`/`else if` chain of the source and yielding
(entry pushed, points added); the image check pushes nothing when the page
has no images.  Final score is `Math.min(score, 100)`. -/
def analyzeTraditionalSeo (data : WebsiteData) : TradOut :=
  -- Title tag analysis
  let titleCheck : TraditionalSeoResult × Nat :=
    if data.title = "" then
      ({ type := .error, title := "Missing title tag",
         description := "The page is missing a title tag, which is crucial for SEO." }, 0)
    else if data.title.length < 30 then
      ({ type := .warning, title := "Title tag too short",
         description := "Title tag should be between 30-60 characters for optimal SEO.",
         details := some ("Current: \"" ++ data.title ++ "\"") }, 10)
    else if data.title.length > 60 then
      ({ type := .warning, title := "Title tag too long",
         description := "Title tag may be truncated in search results.",
         details := some ("Current length: " ++ toString data.title.length ++ " characters") }, 10)
    else
      ({ type := .success, title := "Title tag length optimal",
         description := "Title tag length is within the recommended range.",
         details := some ("Length: " ++ toString data.title.length ++ " characters") }, 20)
  -- Meta description analysis
  let metaCheck : TraditionalSeoResult × Nat :=
    if data.metaDescription = "" then
      ({ type := .error, title := "Missing meta description",
         description := "Meta description is missing, which affects click-through rates." }, 0)
    else if data.metaDescription.length < 120 then
      ({ type := .warning, title := "Meta description too short",
         description := "Meta description should be 120-160 characters for best results.",
         details := some ("Current length: " ++ toString data.metaDescription.length ++ " characters") }, 10)
    else if data.metaDescription.length > 160 then
      ({ type := .warning, title := "Meta description too long",
         description := "Meta description may be truncated in search results.",
         details := some ("Current length: " ++ toString data.metaDescription.length ++ " characters") }, 10)
    else
      ({ type := .success, title := "Meta description length optimal",
         description := "Meta description length is within the recommended range.",
         details := some ("Length: " ++ toString data.metaDescription.length ++ " characters") }, 20)
  -- Heading structure analysis
  let h1Count := data.headings.countP (fun h => h.level == 1)
  let headingCheck : TraditionalSeoResult × Nat :=
    if h1Count = 0 then
      ({ type := .error, title := "Missing H1 tag",
         description := "Every page should have exactly one H1 tag." }, 0)
    else if h1Count > 1 then
      ({ type := .warning, title := "Multiple H1 tags found",
         description := "Use only one H1 per page and structure other headings hierarchically.",
         metrics := [("H1 tags", toString h1Count)] }, 10)
    else
      ({ type := .success, title := "Proper H1 structure",
         description := "Page has exactly one H1 tag." }, 15)
  -- Image optimization analysis
  let imagesWithoutAlt := data.images.countP (fun img => !img.hasAlt)
  let imageCheck : List TraditionalSeoResult × Nat :=
    if imagesWithoutAlt > 0 then
      ([{ type := .error, title := "Missing alt text on images",
          description := toString imagesWithoutAlt ++
            " images found without alt attributes, affecting accessibility and SEO.",
          metrics := [("Total images", toString data.images.length),
                      ("Missing alt", toString imagesWithoutAlt)] }], 0)
    else if data.images.length > 0 then
      ([{ type := .success, title := "All images have alt text",
          description := "Great job! All images have descriptive alt attributes.",
          metrics := [("Total images", toString data.images.length)] }], 15)
    else ([], 0)
  -- Schema markup analysis
  let schemaCheck : TraditionalSeoResult × Nat :=
    if !data.hasSchema then
      ({ type := .warning, title := "No schema markup found",
         description := "Consider adding structured data to help search engines understand your content." }, 0)
    else
      ({ type := .success, title := "Schema markup present",
         description := "Structured data found on the page.",
         details := some ("Types: " ++ String.intercalate ", " data.schemaTypes) }, 15)
  -- Page speed analysis (basic)
  let loadCheck : TraditionalSeoResult × Nat :=
    if data.loadTime > 3000 then
      ({ type := .warning, title := "Slow page load time",
         description := "Page took longer than 3 seconds to load, which may affect user experience.",
         metrics := [("Load time", toString data.loadTime ++ "ms")] }, 0)
    else
      ({ type := .success, title := "Good page load time",
         description := "Page loads within acceptable time limits.",
         metrics := [("Load time", toString data.loadTime ++ "ms")] }, 15)
  { results := [titleCheck.1, metaCheck.1, headingCheck.1] ++ imageCheck.1 ++
      [schemaCheck.1, loadCheck.1],
    score := Nat.min (titleCheck.2 + metaCheck.2 + headingCheck.2 + imageCheck.2 +
      schemaCheck.2 + loadCheck.2) 100 }

/-! ## `analyzeGeo` -/

/-- Return shape of `analyzeGeo`. -/
structure GeoOut where
  results : List GeoResult
  score : Nat
  deriving DecidableEq

/-- `analyzeGeo(data)`: the five GEO checks in source order. -/
def analyzeGeo (data : WebsiteData) : GeoOut :=
  let contentLower := lowerL data.content.data
  -- Content structure analysis
  let hasH2Structure := data.headings.any (fun h => h.level == 2)
  let structCheck : GeoResult × Nat :=
    if hasH2Structure then
      ({ type := .success, title := "Content structured with H2 headings",
         description := "Good use of heading structure that AI engines can easily parse and understand." }, 20)
    else
      ({ type := .warning, title := "Poor heading structure for AI",
         description := "Add H2 and H3 headings to improve AI readability and content parsing." }, 0)
  -- TL;DR analysis
  let hasTldr := containsL contentLower "tl;dr" || containsL contentLower "summary" ||
    containsL contentLower "key takeaways"
  let tldrCheck : GeoResult × Nat :=
    if !hasTldr then
      ({ type := .error, title := "No TL;DR summary found",
         description := "AI tools prefer concise summaries. Add a TL;DR section to improve AI-driven content discovery." }, 0)
    else
      ({ type := .success, title := "Summary content present",
         description := "Content includes summary sections that AI tools can easily extract." }, 25)
  -- Question-answer format analysis
  let hasQAFormat := containsL contentLower "what is" || containsL contentLower "how to" ||
    containsL contentLower "why" ||
    data.headings.any (fun h => containsL (lowerL h.text.data) "?")
  let qaCheck : GeoResult × Nat :=
    if !hasQAFormat then
      ({ type := .warning, title := "Limited question-answer format",
         description := "Content doesn't directly answer user intent queries. Consider restructuring with Q&A sections." }, 0)
    else
      ({ type := .success, title := "Question-answer format detected",
         description := "Content addresses user questions directly, improving AI platform visibility." }, 20)
  -- Schema markup for AI
  let schemaCheck : GeoResult × Nat :=
    if !data.hasSchema then
      ({ type := .error, title := "Missing schema markup",
         description := "No structured data found. Schema markup helps AI engines understand your content context." }, 0)
    else
      ({ type := .success, title := "Schema markup enhances AI understanding",
         description := "Structured data helps AI platforms understand content relationships and context." }, 20)
  -- Entity and semantic clarity
  let hasEntities := strContains data.content "2024" || strContains data.content "2023" ||
    hasProperNounPair data.content
  let entityCheck : GeoResult × Nat :=
    if hasEntities then
      ({ type := .success, title := "Good entity and semantic clarity",
         description := "Content includes specific entities, dates, and proper nouns that improve AI understanding." }, 15)
    else
      ({ type := .warning, title := "Moderate entity and semantic clarity",
         description := "Consider adding more specific dates, locations, and definitions to improve AI understanding." }, 0)
  { results := [structCheck.1, tldrCheck.1, qaCheck.1, schemaCheck.1, entityCheck.1],
    score := Nat.min (structCheck.2 + tldrCheck.2 + qaCheck.2 + schemaCheck.2 +
      entityCheck.2) 100 }

/-! ## The 12 AI-visibility factor assessors -/

/-- Factor 1, `assessCrawlability`: base 70, keyword penalties/bonuses,
clamped by `Math.max(10, Math.min(100, score))`. -/
def assessCrawlability (data : WebsiteData) : Int :=
  let content := lowerL data.content.data
  let score : Int := 70
  -- Check for potential blocking indicators in content
  let score := if containsL content "login" || containsL content "sign in" ||
      containsL content "register" then score - 30 else score
  -- Check for paywall indicators
  let score := if containsL content "subscription" || containsL content "premium" ||
      containsL content "paywall" then score - 20 else score
  -- Boost for public content indicators
  let score := if containsL content "free" || containsL content "public" ||
      containsL content "open access" then score + 20 else score
  -- Check URL structure for accessibility
  let titleLower := lowerL data.title.data
  let score := if data.title != "" && !containsL titleLower "404" &&
      !containsL titleLower "error" then score + 15 else score
  max 10 (min 100 score)

/-- Factor 2, `assessHtmlStructure`: heading / title / meta-length points,
clamped by `Math.min(100, score)`. -/
def assessHtmlStructure (data : WebsiteData) : Nat :=
  -- Check for single H1
  let h1Count := data.headings.countP (fun h => h.level == 1)
  let score := if h1Count = 1 then 25 else if h1Count = 0 then 0 else 10
  -- Check for proper heading hierarchy
  let score := if data.headings.any (fun h => h.level == 2) then score + 25 else score
  let score := if data.headings.any (fun h => h.level == 3) then score + 15 else score
  -- Basic structure bonus
  let score := if data.title != "" && data.title.length > 10 then score + 20 else score
  let score := if data.metaDescription != "" && data.metaDescription.length > 50 then
      score + 15 else score
  Nat.min 100 score

/-- Factor 3, `assessContentClarity`. -/
def assessContentClarity (data : WebsiteData) : Nat :=
  let content := lowerL data.content.data
  -- Check for clear introduction patterns (more specific)
  let introPatterns := ["what is", "introduction", "overview", "in this article", "this guide"]
  let score := 10 + (if introPatterns.any (containsL content) then 20 else 0)
  -- Check for question-answering patterns
  let qaPatterns := ["how to", "why", "when", "where", "which", "who"]
  let foundQA := qaPatterns.countP (containsL content)
  let score := score + Nat.min (foundQA * 8) 25
  -- Check for definition patterns
  let definitionPatterns := ["definition", "means", "refers to", "is defined as", "can be defined"]
  let score := if definitionPatterns.any (containsL content) then score + 15 else score
  -- Content length scoring (more granular)
  let score := score +
    (if data.wordCount > 500 && data.wordCount < 2000 then 25
     else if data.wordCount ≥ 2000 && data.wordCount < 4000 then 20
     else if data.wordCount ≥ 300 && data.wordCount ≤ 500 then 15
     else if data.wordCount < 300 then 5
     else 0)
  -- Check for topic consistency (title relevance)
  let score :=
    if data.title != "" then
      let titleWords := (splitOnL " " (lowerL data.title.data)).filter (fun w => w.length > 3)
      let contentMentions := titleWords.countP (fun w => (containsL content ⟨w⟩))
      let relevanceRatio : ℚ := (contentMentions : ℚ) / (max titleWords.length 1 : ℚ)
      score + natRound (relevanceRatio * 15)
    else score
  Nat.min 100 score

/-- Factor 4, `assessScanability`. -/
def assessScanability (data : WebsiteData) : Nat :=
  let content := data.content.data
  let score := 5
  -- More accurate paragraph analysis
  let paragraphs := (splitOnL "\n\n" content).filter (fun p => (trimL p).length > 50)
  let score := score +
    (if paragraphs.length > 0 then
      let avgParagraphLength : ℚ :=
        ((paragraphs.map List.length).sum : ℚ) / (paragraphs.length : ℚ)
      if avgParagraphLength < 200 then 30
      else if avgParagraphLength < 400 then 25
      else if avgParagraphLength < 600 then 15
      else 5
    else 0)
  -- Enhanced list detection
  let bulletPoints := scanCount (matchCharWs ['•', '*', '-']) content
  let numberedLists := scanCount matchNumDotWs content
  let totalLists := bulletPoints + numberedLists
  let score := score +
    (if totalLists > 10 then 25
     else if totalLists > 5 then 20
     else if totalLists > 2 then 15
     else if totalLists > 0 then 10
     else 0)
  -- Heading distribution analysis
  let headingRatio : ℚ :=
    (data.headings.length : ℚ) / max ((data.wordCount : ℚ) / 200) 1
  let score := score +
    (if headingRatio > 0.8 then 25
     else if headingRatio > 0.5 then 20
     else if headingRatio > 0.3 then 15
     else if headingRatio > 0.1 then 10
     else 0)
  -- Check for scannable formatting patterns
  let boldM := scanCount matchBold content
  let italicM := scanCount matchItalic content
  let colonM := scanCount matchColonEol content
  let listM := countLines (lineBulletStart ['-', '•']) (splitOnL "\n" content)
  let formattingScore :=
    (if boldM > 0 then Nat.min (boldM * 2) 10 else 0) +
    (if italicM > 0 then Nat.min (italicM * 2) 10 else 0) +
    (if colonM > 0 then Nat.min (colonM * 2) 10 else 0) +
    (if listM > 0 then Nat.min (listM * 2) 10 else 0)
  let score := score + Nat.min formattingScore 20
  Nat.min 100 score

/-- Factor 5, `assessSummarySections`. -/
def assessSummarySections (data : WebsiteData) : Nat :=
  let content := lowerL data.content.data
  -- Check for TL;DR
  let score := if containsL content "tl;dr" || containsL content "tldr" then 40 else 0
  -- Check for summary indicators
  let score := if containsL content "summary" || containsL content "key points" ||
      containsL content "takeaways" then score + 30 else score
  -- Check for conclusion
  let score := if containsL content "conclusion" || containsL content "to summarize" then
      score + 30 else score
  Nat.min 100 score

/-- Factor 6, `assessQaFormat`. -/
def assessQaFormat (data : WebsiteData) : Nat :=
  let content := lowerL data.content.data
  -- Check for Q&A patterns
  let score := if containsL content "q:" || containsL content "question:" ||
      containsL content "faq" then 40 else 0
  -- Check for answer patterns
  let score := if containsL content "a:" || containsL content "answer:" then
      score + 30 else score
  -- Check for question headings
  let questionHeadings := data.headings.filter (fun h =>
    containsL (lowerL h.text.data) "?" ||
    "how ".data.isPrefixOf (lowerL h.text.data) ||
    "what ".data.isPrefixOf (lowerL h.text.data) ||
    "why ".data.isPrefixOf (lowerL h.text.data))
  let score := if questionHeadings.length > 0 then score + 30 else score
  Nat.min 100 score

/-- Factor 7, `assessSchemaMarkup`. -/
def assessSchemaMarkup (data : WebsiteData) : Nat :=
  let score :=
    if data.hasSchema then
      50 +
      -- Bonus for specific schema types
      (if data.schemaTypes.contains "FAQPage" then 20 else 0) +
      (if data.schemaTypes.contains "Article" then 15 else 0) +
      (if data.schemaTypes.contains "HowTo" then 15 else 0)
    else 0
  Nat.min 100 score

/-- Factor 8, `assessTrustedEntities`. -/
def assessTrustedEntities (data : WebsiteData) : Nat :=
  let content := lowerL data.content.data
  let score := 5
  -- Authority domain references (more comprehensive)
  let authorityDomains := ["wikipedia", ".gov", ".edu", ".org", "reuters", "bbc", "cnn",
    "nytimes", "wsj"]
  let foundAuthority := authorityDomains.countP (containsL content)
  let score := score + Nat.min (foundAuthority * 12) 35
  -- Academic and research indicators
  let researchTerms := ["research", "study", "university", "journal", "published",
    "peer review", "academic"]
  let foundResearch := researchTerms.countP (containsL content)
  let score := score + Nat.min (foundResearch * 8) 25
  -- Industry authority terms
  let industryTerms := ["according to", "expert", "specialist", "authority", "leader in",
    "established"]
  let foundIndustry := industryTerms.countP (containsL content)
  let score := score + Nat.min (foundIndustry * 5) 20
  -- External links analysis (more sophisticated)
  let externalLinks := data.links.filter (fun link => !link.isInternal)
  let score := score + Nat.min (externalLinks.length * 3) 20
  -- Check for citations or references
  let score := if containsL content "source:" || containsL content "reference" ||
      containsL content "citation" then score + 15 else score
  -- Brand mentions and entities
  let entityPatterns := ["inc.", "corp.", "ltd.", "company", "organization", "institute"]
  let foundEntities := entityPatterns.countP (containsL content)
  let score := score + Nat.min (foundEntities * 4) 15
  Nat.min 100 score

/-- Factor 9, `assessDataFormats`. -/
def assessDataFormats (data : WebsiteData) : Nat :=
  let content := data.content.data
  let contentLower := lowerL content
  let lines := splitOnL "\n" content
  let score := 5
  -- Enhanced bullet point detection (four regex variants, counts summed)
  let bulletCount :=
    scanCount (matchCharWs ['•', '*']) content +
    countLines (lineBulletStart ['-', '*', '+']) lines +
    scanCount (matchCharWs ['▪']) content +
    scanCount (matchCharWs ['◦']) content
  let score := score +
    (if bulletCount > 10 then 25
     else if bulletCount > 5 then 20
     else if bulletCount > 2 then 15
     else if bulletCount > 0 then 10
     else 0)
  -- Enhanced numbered list detection
  let numberedCount := countLines lineNumberedStart lines
  let score := score +
    (if numberedCount > 8 then 20
     else if numberedCount > 4 then 15
     else if numberedCount > 1 then 10
     else if numberedCount > 0 then 5
     else 0)
  -- Enhanced statistical data detection (seven regex variants, counts summed)
  let statCount :=
    scanCount matchPercent content +
    scanCount matchCurrency content +
    scanCount matchCommaNum content +
    scanCount matchDecimal content +
    scanCount (matchNumUnit [("million", false), ("billion", false), ("thousand", false)])
      contentLower +
    scanCount (matchNumUnit [("hour", true), ("day", true), ("week", true), ("month", true),
      ("year", true)]) contentLower +
    scanCount (matchNumUnit [("people", false), ("users", false), ("customers", false),
      ("companies", false)]) contentLower
  let score := score +
    (if statCount > 15 then 25
     else if statCount > 8 then 20
     else if statCount > 4 then 15
     else if statCount > 1 then 10
     else 0)
  -- Table indicators (in text content)
  let tableIndicators := ["table", "chart", "graph", "figure", "data shows", "statistics"]
  let tableScore := tableIndicators.countP (containsL contentLower)
  let score := score + Nat.min (tableScore * 3) 15
  -- Comparison formats (five regex variants, counts summed)
  let comparisonCount :=
    scanCount matchVs contentLower +
    countSub "versus" contentLower +
    countSub "compared to" contentLower +
    countSub "in contrast" contentLower +
    countSub "on the other hand" contentLower
  let score := score + Nat.min (comparisonCount * 4) 15
  -- Code or technical formatting (three regex variants, counts summed)
  let codeCount :=
    scanCount matchInlineCode content +
    scanCount matchCodeBlock content +
    scanCount matchHtmlTag content
  let score := score + Nat.min (codeCount * 2) 10
  Nat.min 100 score

/-- Factor 10, `assessReadability`: clamped by
`Math.max(10, Math.min(100, score))`. -/
def assessReadability (data : WebsiteData) : Nat :=
  let score := 30
  -- Sentence length analysis
  let sentences := (splitRuns (fun c => c = '.' || c = '!' || c = '?') data.content.data).filter
    (fun s => (trimL s).length > 10)
  let score := score +
    (if sentences.length > 0 then
      let avgWordsPerSentence : ℚ := (data.wordCount : ℚ) / (sentences.length : ℚ)
      if avgWordsPerSentence < 15 then 30
      else if avgWordsPerSentence < 20 then 20
      else if avgWordsPerSentence < 25 then 10
      else 5
    else 0)
  -- Complex word analysis (words longer than 7 characters).  When the page
  -- has no words the source's ratio is NaN, every band comparison is false,
  -- and the final `else` branch (+5) is taken.
  let words := wordRuns data.content.data
  let complexWords := words.filter (fun w => w.length > 7)
  let score := score +
    (if words.length = 0 then 5
     else
      let complexWordRatio : ℚ := (complexWords.length : ℚ) / (words.length : ℚ)
      if complexWordRatio < 0.15 then 20
      else if complexWordRatio < 0.25 then 15
      else if complexWordRatio < 0.35 then 10
      else 5)
  -- Paragraph length assessment
  let paragraphs := (splitOnL "\n\n" data.content.data).filter (fun p => (trimL p).length > 50)
  let score := score +
    (if paragraphs.length > 0 then
      let avgParagraphWords : ℚ := (data.wordCount : ℚ) / (paragraphs.length : ℚ)
      if avgParagraphWords < 50 then 15
      else if avgParagraphWords < 100 then 10
      else 5
    else 0)
  -- Readability indicators
  let readabilityTerms := ["simply", "easy", "quick", "step by step", "in other words",
    "for example"]
  let foundTerms := readabilityTerms.countP (containsL (lowerL data.content.data))
  let score := score + Nat.min (foundTerms * 5) 15
  Nat.max 10 (Nat.min 100 score)

/-- Factor 11, `assessFreshness`.  The source reads the current year from the
system clock (`new Date().getFullYear()`); it is passed here as the
`currentYear` parameter.  Clamped by `Math.max(5, Math.min(100, score))`. -/
def assessFreshness (currentYear : Nat) (data : WebsiteData) : Int :=
  let content := lowerL data.content.data
  let score : Int := 10
  -- Current year references (weighted by frequency)
  let currentYearMatches := countSub (toString currentYear) content
  let score := score + min ((currentYearMatches : Int) * 15) 30
  -- Previous year (less weight)
  let lastYearMatches := countSub (toString (currentYear - 1)) content
  let score := score + min ((lastYearMatches : Int) * 10) 20
  -- Freshness indicators with varying weights
  let freshnessScore : Int :=
    (if containsL content "updated" then 15 else 0) +
    (if containsL content "revised" then 12 else 0) +
    (if containsL content "latest" then 10 else 0) +
    (if containsL content "current" then 8 else 0) +
    (if containsL content "recent" then 8 else 0) +
    (if containsL content "new" then 6 else 0) +
    (if containsL content "today" then 12 else 0) +
    (if containsL content "this year" then 10 else 0) +
    (if containsL content "recently" then 8 else 0)
  let score := score + min freshnessScore 25
  -- Month references (indicates recent content)
  let months := ["january", "february", "march", "april", "may", "june",
    "july", "august", "september", "october", "november", "december"]
  let monthMentions := months.countP (containsL content)
  let score := score + min ((monthMentions : Int) * 3) 15
  -- Version indicators
  let versionPatterns := ["version", "v.", "update", "release"]
  let versionMentions := versionPatterns.countP (containsL content)
  let score := score + min ((versionMentions : Int) * 5) 15
  -- Penalty for old years
  let oldYears := ["2020", "2019", "2018", "2017"]
  let oldYearMentions := oldYears.countP (containsL content)
  let score := score - min ((oldYearMentions : Int) * 5) 20
  max 5 (min 100 score)

/-- Factor 12, `assessCredibility`: clamped by
`Math.max(5, Math.min(100, score))`. -/
def assessCredibility (data : WebsiteData) : Nat :=
  let content := lowerL data.content.data
  -- Author information (various formats)
  let authorPatterns := ["author:", "written by", "by:", "contributor:", "created by",
    "published by"]
  let score := 15 + (if authorPatterns.any (containsL content) then 25 else 0)
  -- Contact and company information
  let contactPatterns := ["contact us", "about us", "our team", "meet the team", "company info"]
  let foundContact := contactPatterns.countP (containsL content)
  let score := score + Nat.min (foundContact * 8) 20
  -- Professional credentials and expertise
  let credentialTerms := ["expert", "certified", "professional", "phd", "degree",
    "years of experience", "specialist"]
  let foundCredentials := credentialTerms.countP (containsL content)
  let score := score + Nat.min (foundCredentials * 6) 18
  -- Trust signals
  let trustSignals := ["award", "featured in", "recognized", "testimonial", "review",
    "trusted by"]
  let foundTrust := trustSignals.countP (containsL content)
  let score := score + Nat.min (foundTrust * 5) 15
  -- Publication date or last updated
  let datePatterns := ["published", "updated", "last modified", "copyright", "2024", "2025"]
  let score := if datePatterns.any (containsL content) then score + 12 else score
  -- External validation
  let score := if containsL content "source" || containsL content "reference" ||
      containsL content "study" then score + 10 else score
  Nat.max 5 (Nat.min 100 score)

/-! ## Aggregation: `analyzeAiPlatformVisibility` -/

/-- The threshold-to-status expression
`score >= 80 ? 'pass' : score >= 50 ? 'warning' : 'fail'` that the source
inlines verbatim at each of the 12 factor sites. -/
def statusFor (score : Int) : FactorStatus :=
  if score ≥ 80 then .pass else if score ≥ 50 then .warning else .fail

/-- High-priority template emitted for a failing "TL;DR & Summary" factor. -/
def recTldrFail : Recommendation :=
  { priority := .high, action := "Add TL;DR Summary Section",
    description := "Add a 2-3 sentence summary at the top or bottom of your page that covers the main points",
    impact := "AI tools will be able to easily understand and summarize your content" }

/-- High-priority template emitted for a failing "Q&A Format" factor. -/
def recQaFail : Recommendation :=
  { priority := .high, action := "Create FAQ Section",
    description := "Add common questions and their direct answers in a structured format",
    impact := "Better visibility in ChatGPT and Perplexity search results" }

/-- High-priority template emitted for a failing "Schema Markup" factor. -/
def recSchemaFail : Recommendation :=
  { priority := .high, action := "Implement Structured Data",
    description := "Add FAQPage, Article, or HowTo schema markup to your content",
    impact := "AI platforms will better understand your content context and relationships" }

/-- High-priority template emitted for a failing "Content Clarity" factor. -/
def recClarityFail : Recommendation :=
  { priority := .high, action := "Improve Content Structure",
    description := "Add clear introductions, definitions, and explanatory content",
    impact := "AI systems will better understand and reference your content" }

/-- Medium-priority template emitted for a warning "HTML Structure" factor. -/
def recHtmlWarn : Recommendation :=
  { priority := .medium, action := "Improve Heading Structure",
    description := "Use a single H1 tag and create proper H2/H3 hierarchy",
    impact := "AI systems will better understand your content's logical flow" }

/-- Medium-priority template emitted for a warning "Content Scannability" factor. -/
def recScanWarn : Recommendation :=
  { priority := .medium, action := "Break Content into Short Paragraphs",
    description := "Divide long paragraphs into shorter ones and use bullet points",
    impact := "AI tools can more easily scan and extract information from your content" }

/-- Medium-priority template emitted for a warning "Readability Level" factor. -/
def recReadWarn : Recommendation :=
  { priority := .medium, action := "Simplify Language",
    description := "Use shorter sentences and simpler vocabulary for better comprehension",
    impact := "AI systems prefer content that's easy to understand and process" }

/-- Generic freshness recommendation appended when `overallScore < 70`. -/
def recFreshGeneric : Recommendation :=
  { priority := .medium, action := "Add Current Year References",
    description := "Include 2025 dates and recent data points to show content freshness",
    impact := "AI platforms prefer fresh and up-to-date content for their responses" }

/-- Generic statistics recommendation appended when `overallScore < 50`. -/
def recStatsGeneric : Recommendation :=
  { priority := .high, action := "Add Statistics and Data",
    description := "Include specific numbers, percentages, and data points in your content",
    impact := "AI systems can extract and reference concrete data points from your content" }

/-- The per-factor `switch` of the first `forEach` of
`generateAiVisibilityRecommendations`: a failing factor emits its template
when it is one of the four covered names, and nothing otherwise. -/
def failRecFor (f : FactorResult) : List Recommendation :=
  if f.status = .fail then
    if f.factor = "TL;DR & Summary" then [recTldrFail]
    else if f.factor = "Q&A Format" then [recQaFail]
    else if f.factor = "Schema Markup" then [recSchemaFail]
    else if f.factor = "Content Clarity" then [recClarityFail]
    else []
  else []

/-- The per-factor `switch` of the second `forEach`: a warning factor emits
its template when it is one of the three covered names. -/
def warnRecFor (f : FactorResult) : List Recommendation :=
  if f.status = .warning then
    if f.factor = "HTML Structure" then [recHtmlWarn]
    else if f.factor = "Content Scannability" then [recScanWarn]
    else if f.factor = "Readability Level" then [recReadWarn]
    else []
  else []

/-- `generateAiVisibilityRecommendations(factors, overallScore)`: fail
templates in factor order, then warning templates in factor order, then the
two score-banded generic entries, truncated by `slice(0, 8)`. -/
def generateAiVisibilityRecommendations (factors : List FactorResult)
    (overallScore : Int) : List Recommendation :=
  ((factors.map failRecFor).flatten ++
   (factors.map warnRecFor).flatten ++
   (if overallScore < 70 then [recFreshGeneric] else []) ++
   (if overallScore < 50 then [recStatsGeneric] else [])).take 8

/-- `analyzeAiPlatformVisibility(data)`: runs the 12 assessors in catalogue
order, derives each status from its score, sums the scores and computes
`overallScore = Math.round(totalScore / 1200 * 100)`.  `currentYear` is the
system-clock year that the freshness assessor reads. -/
def analyzeAiPlatformVisibility (currentYear : Nat) (data : WebsiteData) :
    AiVisibilityAssessment :=
  let crawlabilityScore : Int := assessCrawlability data
  let structureScore : Int := assessHtmlStructure data
  let clarityScore : Int := assessContentClarity data
  let scannabilityScore : Int := assessScanability data
  let summaryScore : Int := assessSummarySections data
  let qaScore : Int := assessQaFormat data
  let schemaScore : Int := assessSchemaMarkup data
  let entityScore : Int := assessTrustedEntities data
  let dataScore : Int := assessDataFormats data
  let readabilityScore : Int := assessReadability data
  let freshnessScore : Int := assessFreshness currentYear data
  let credibilityScore : Int := assessCredibility data
  let factors : List FactorResult :=
    [{ factor := "Public Crawlability", score := crawlabilityScore,
       description := "Page accessibility for AI crawlers without login walls or blocking",
       status := statusFor crawlabilityScore },
     { factor := "HTML Structure", score := structureScore,
       description := "Clean semantic HTML with proper heading hierarchy",
       status := statusFor structureScore },
     { factor := "Content Clarity", score := clarityScore,
       description := "Clear introduction, topic definition, and direct question answers",
       status := statusFor clarityScore },
     { factor := "Content Scannability", score := scannabilityScore,
       description := "Short paragraphs and easy-to-summarize content structure",
       status := statusFor scannabilityScore },
     { factor := "TL;DR & Summary", score := summaryScore,
       description := "Quick summary sections at top or bottom of content",
       status := statusFor summaryScore },
     { factor := "Q&A Format", score := qaScore,
       description := "Structured question-answer blocks that AI can easily extract",
       status := statusFor qaScore },
     { factor := "Schema Markup", score := schemaScore,
       description := "FAQPage, HowTo, Article, and other relevant structured data",
       status := statusFor schemaScore },
     { factor := "Trusted Entities", score := entityScore,
       description := "References to organizations, authority sources, and credible links",
       status := statusFor entityScore },
     { factor := "Data Extraction", score := dataScore,
       description := "Bullet lists, tables, statistics, and structured information",
       status := statusFor dataScore },
     { factor := "Readability Level", score := readabilityScore,
       description := "8th-grade reading level, minimal jargon and marketing fluff",
       status := statusFor readabilityScore },
     { factor := "Content Freshness", score := freshnessScore,
       description := "Updated dates, current year references, and freshness indicators",
       status := statusFor freshnessScore },
     { factor := "Credibility Markers", score := credibilityScore,
       description := "Author information, contact details, and about us content",
       status := statusFor credibilityScore }]
  let totalScore : Int := crawlabilityScore + structureScore + clarityScore +
    scannabilityScore + summaryScore + qaScore + schemaScore + entityScore +
    dataScore + readabilityScore + freshnessScore + credibilityScore
  -- maxScore = 1200 (12 factors × 100 points each); the source evaluates
  -- Math.round((totalScore / maxScore) * 100) in binary64
  let overallScore : Int := jsRoundF64 totalScore
  let failingFactors := factors.countP (fun f => f.status == .fail)
  let warningFactors := factors.countP (fun f => f.status == .warning)
  let summary :=
    if overallScore ≥ 80 then
      "Excellent AI platform visibility with strong optimization across most factors"
    else if overallScore ≥ 60 then
      "Good AI visibility with " ++ toString (failingFactors + warningFactors) ++
        " areas needing improvement"
    else if overallScore ≥ 40 then
      "Moderate AI visibility. " ++ toString failingFactors ++ " critical issues and " ++
        toString warningFactors ++ " warnings to address"
    else
      "Poor AI platform visibility. Significant optimization needed across " ++
        toString failingFactors ++ " critical areas"
  { overallScore := overallScore, summary := summary, factors := factors,
    recommendations := generateAiVisibilityRecommendations factors overallScore }

/-! ## `generateContentSuggestions` and `generateAiImprovements` -/

/-- `generateAiImprovements(data, currentScore)`: score-banded fixed entries,
truncated by `slice(0, 6)`.  The `data` argument is accepted but never read
by the source. -/
def generateAiImprovements (_data : WebsiteData) (currentScore : Int) :
    List AiImprovement :=
  -- High priority improvements for scores below 50
  (((if currentScore < 50 then
      [{ action := "Add TL;DR Summary Section",
         description := "Add a 2-3 sentence summary at the top of your page covering the main points for AI tools",
         impact := Priority.high, priority := 1 },
       { action := "Create FAQ Schema Markup",
         description := "Add common questions and their answers in structured data format so AI can easily understand",
         impact := Priority.high, priority := 2 }]
    else []) ++
  -- Medium priority improvements for scores 50-75
  (if currentScore < 75 then
      [{ action := "Improve Content Structure with Clear Headings",
         description := "Use H2/H3 headings that directly answer questions (What is, How to, Why)",
         impact := Priority.high, priority := 3 },
       { action := "Add \"People Also Ask\" Section",
         description := "Add related questions and their short answers that users commonly ask",
         impact := Priority.medium, priority := 4 },
       { action := "Include Specific Dates and Statistics",
         description := "Add current year, numbers, and specific data points that AI tools can reference",
         impact := Priority.medium, priority := 5 }]
    else []) ++
  -- Fine-tuning improvements for scores 75-85
  (if currentScore < 85 then
      [{ action := "Optimize for Voice Search Queries",
         description := "Add natural language phrases that people ask voice assistants",
         impact := Priority.medium, priority := 6 },
       { action := "Add Comparison Tables",
         description := "Present options, features, and alternatives in table format",
         impact := Priority.medium, priority := 7 }]
    else []) ++
  -- Advanced improvements for scores 85+
  (if currentScore ≥ 85 then
      [{ action := "Link to Authoritative Sources",
         description := "Reference Wikipedia, government sites, and trusted sources for credibility",
         impact := Priority.low, priority := 8 },
       { action := "Add Step-by-Step Instructions",
         description := "Convert process-based content into numbered lists",
         impact := Priority.low, priority := 9 },
       { action := "Implement Article Schema",
         description := "Add structured data for publisher, author, and publication date",
         impact := Priority.low, priority := 10 }]
    else []) : List AiImprovement)).take 6

/-- `generateContentSuggestions(data, aiScore)`: four static catalogues, a
static platform-visibility map, and the score-banded `aiImprovements`. -/
def generateContentSuggestions (data : WebsiteData) (aiScore : Int) :
    ContentSuggestions :=
  { missingKeywords :=
      ["SEO optimization", "website performance", "search engine ranking",
       "content marketing", "digital marketing"],
    blogTitles :=
      [{ title := "How to Improve Your Page Speed for Better Rankings in 2024",
         target := "page speed optimization, Core Web Vitals" },
       { title := "The Complete Guide to AI-Friendly Content Creation",
         target := "AI optimization, content structure" },
       { title := "SEO vs GEO: What's the Difference and Why It Matters",
         target := "generative engine optimization, SEO comparison" },
       { title := "Schema Markup: The Secret to Better AI Visibility",
         target := "structured data, schema implementation" }],
    contentStructure :=
      ["## What is SEO Optimization?",
       "### Definition and Core Principles",
       "### Why SEO Matters in 2024",
       "## Traditional SEO vs. AI Optimization",
       "### Search Engine Optimization Basics",
       "### Generative Engine Optimization (GEO)",
       "## Step-by-Step Implementation Guide",
       "### Technical SEO Checklist",
       "### Content Optimization Strategies",
       "## Measuring Success",
       "### Key Performance Indicators",
       "### Tools and Analytics"],
    faqs :=
      [{ question := "What is a good page speed score?",
         answer := "A good page speed score is above 90 for mobile and desktop. Core Web Vitals should meet Google's thresholds: LCP under 2.5s, FID under 100ms, and CLS under 0.1." },
       { question := "How can I optimize images without losing quality?",
         answer := "Use modern formats like WebP or AVIF, implement lazy loading, compress images to 80-85% quality, and serve responsive images using srcset attributes." },
       { question := "What's the difference between SEO and GEO?",
         answer := "SEO optimizes for search engines like Google, while GEO (Generative Engine Optimization) optimizes for AI platforms like ChatGPT and Perplexity that generate direct answers." },
       { question := "How important is schema markup for AI visibility?",
         answer := "Schema markup is crucial for AI platforms to understand your content context, entity relationships, and factual information, significantly improving visibility in AI-generated responses." }],
    aiVisibility :=
      { chatgpt := .medium, perplexity := .low, claude := .medium, bard := .low },
    aiImprovements := generateAiImprovements data aiScore }

/-! ## `compareWebsites` -/

/-- JavaScript `Math.abs` on an integer. -/
def jsAbs (n : Int) : Int := if n < 0 then -n else n

/-- `compareWebsites(data1, report1, data2, report2, aiVisibility1,
aiVisibility2)`: three signed side-B-minus-side-A diffs, the better
performer, and the conditionally emitted key differences. -/
def compareWebsites (data1 : WebsiteData) (report1 : ReportScores)
    (data2 : WebsiteData) (report2 : ReportScores)
    (aiVisibility1 aiVisibility2 : AiVisibilityAssessment) : ComparisonOutput :=
  let seoScoreDiff := report2.seoScore - report1.seoScore
  let aiScoreDiff := report2.aiScore - report1.aiScore
  let aiVisibilityDiff := aiVisibility2.overallScore - aiVisibility1.overallScore
  let betterPerformer :=
    if seoScoreDiff + aiScoreDiff + aiVisibilityDiff > 0 then "url2" else "url1"
  -- SEO Differences
  let seoKDs : List KeyDifference :=
    if jsAbs seoScoreDiff > 10 then
      [{ category := "seo", aspect := "Title Tag Optimization",
         url1Value := toString data1.title.length ++ " characters",
         url2Value := toString data2.title.length ++ " characters",
         recommendation :=
           if seoScoreDiff > 0 then "URL2 has better title length (50-60 chars ideal)"
           else "URL1 has better title length optimization" },
       { category := "seo", aspect := "Meta Description",
         url1Value :=
           if data1.metaDescription != "" then
             toString data1.metaDescription.length ++ " chars"
           else "Missing",
         url2Value :=
           if data2.metaDescription != "" then
             toString data2.metaDescription.length ++ " chars"
           else "Missing",
         recommendation := "Meta description should be 150-160 characters for best results" }]
    else []
  -- AI Platform Visibility Differences
  let visKDs : List KeyDifference :=
    if jsAbs aiVisibilityDiff > 15 then
      let factor1 := aiVisibility1.factors.find? (fun f => f.factor == "TL;DR & Summary")
      let factor2 := aiVisibility2.factors.find? (fun f => f.factor == "TL;DR & Summary")
      let schema1 := aiVisibility1.factors.find? (fun f => f.factor == "Schema Markup")
      let schema2 := aiVisibility2.factors.find? (fun f => f.factor == "Schema Markup")
      [{ category := "visibility", aspect := "AI Platform Summary",
         url1Value :=
           match factor1 with
           | some f => toString f.score ++ "/100"
           | none => "Not assessed",
         url2Value :=
           match factor2 with
           | some f => toString f.score ++ "/100"
           | none => "Not assessed",
         recommendation := "Add TL;DR sections and clear summaries for better AI visibility" },
       { category := "visibility", aspect := "Structured Data Implementation",
         url1Value :=
           match schema1 with
           | some f => toString f.score ++ "/100"
           | none => "Not assessed",
         url2Value :=
           match schema2 with
           | some f => toString f.score ++ "/100"
           | none => "Not assessed",
         recommendation := "Implement FAQPage and Article schema markup for AI platforms" }]
    else []
  -- AI Optimization Differences
  let aiKDs : List KeyDifference :=
    if jsAbs aiScoreDiff > 10 then
      [{ category := "ai", aspect := "Content Structure",
         url1Value :=
           if data1.headings.any (fun h => h.level == 2) then "Has H2 structure"
           else "Poor heading structure",
         url2Value :=
           if data2.headings.any (fun h => h.level == 2) then "Has H2 structure"
           else "Poor heading structure",
         recommendation := "Use H2/H3 headings for better AI content parsing" },
       { category := "ai", aspect := "Schema Markup",
         url1Value :=
           if data1.hasSchema then toString data1.schemaTypes.length ++ " types" else "None",
         url2Value :=
           if data2.hasSchema then toString data2.schemaTypes.length ++ " types" else "None",
         recommendation := "Implement FAQ and Article schema for AI platforms" }]
    else []
  { seoScoreDiff := seoScoreDiff, aiScoreDiff := aiScoreDiff,
    aiVisibilityDiff := aiVisibilityDiff, betterPerformer := betterPerformer,
    keyDifferences := seoKDs ++ visKDs ++ aiKDs }

/-! ## Concrete records used by the scenario theorems -/

/-- The entirely empty page record of the spec's §8 scenario: empty strings
and sequences, `loadTime = 500`, `wordCount = 0`. -/
def emptyRecord : WebsiteData :=
  { title := "", metaDescription := "", headings := [], images := [], links := [],
    content := "", hasSchema := false, schemaTypes := [], loadTime := 500, wordCount := 0 }

/-- An empty AI-visibility aggregate used to exercise the comparator. -/
def emptyAssessment : AiVisibilityAssessment :=
  { overallScore := 0, summary := "", factors := [], recommendations := [] }

/-- A record whose 12 factor scores are
85, 60, 15, 30, 0, 0, 70, 17, 5, 35, 10, 15 — total 342, one of the four
totals where binary64 `Math.round((t/1200)*100)` lands below the exact
half-way point (`(342/1200)*100` evaluates to `28.499999999999996`). -/
def cexRecord : WebsiteData :=
  { title := "Abcdefghijkl", metaDescription := "",
    headings := [{ level := 1, text := "Abc" }, { level := 3, text := "Def" }],
    images := [],
    links := [{ href := "a", text := "", isInternal := false },
              { href := "b", text := "", isInternal := false },
              { href := "c", text := "", isInternal := false },
              { href := "d", text := "", isInternal := false }],
    content := "", hasSchema := true, schemaTypes := ["FAQPage"],
    loadTime := 500, wordCount := 0 }

/-! ## Helper lemmas -/

set_option maxRecDepth 40000 in
set_option maxHeartbeats 4000000 in
/-- Exhaustive check of `jsRoundF64` over every reachable total
`0 ≤ t ≤ 1200`: it equals the exact half-up rounding of `t/12` except at
174, 342, 678 and 690, where the binary64 product lands just below the
half-way point and the result is one less. -/
theorem jsRoundF64_range_check :
    ((List.range 1201).all (fun t =>
      decide (jsRoundF64 (t : ℤ) =
        (if t = 174 ∨ t = 342 ∨ t = 678 ∨ t = 690 then (((t + 6) / 12 : ℕ) : ℤ) - 1
         else (((t + 6) / 12 : ℕ) : ℤ))))) = true := by
  decide

/-- Pointwise form of `jsRoundF64_range_check`. -/
theorem jsRoundF64_eq_cases (t : ℕ) (ht : t < 1201) :
    jsRoundF64 (t : ℤ) =
      (if t = 174 ∨ t = 342 ∨ t = 678 ∨ t = 690 then (((t + 6) / 12 : ℕ) : ℤ) - 1
       else (((t + 6) / 12 : ℕ) : ℤ)) := by
  have h := jsRoundF64_range_check
  rw [List.all_eq_true] at h
  exact of_decide_eq_true (h t (List.mem_range.mpr ht))

/-- The exact-rational `Math.round(t/1200*100)` is `⌊(t+6)/12⌋`. -/
theorem jsRound_exact_eq_div (t : ℕ) :
    jsRound ((t : ℚ) / 1200 * 100) = (((t + 6) / 12 : ℕ) : ℤ) := by
  unfold jsRound
  have h1 : ((t : ℚ) / 1200 * 100 + 1/2) = ((t + 6 : ℕ) : ℚ) / 12 := by
    push_cast
    ring
  rw [h1, Int.floor_eq_iff]
  constructor
  · rw [le_div_iff₀ (by norm_num : (0 : ℚ) < 12)]
    have h2 : (t + 6) / 12 * 12 ≤ t + 6 := Nat.div_mul_le_self _ _
    exact_mod_cast h2
  · rw [div_lt_iff₀ (by norm_num : (0 : ℚ) < 12)]
    have h3 : t + 6 < ((t + 6) / 12 + 1) * 12 := by omega
    push_cast
    exact_mod_cast h3

/-- The status thresholds realised by `statusFor`. -/
theorem statusFor_spec (s : Int) :
    (statusFor s = .pass ↔ 80 ≤ s) ∧
    (statusFor s = .warning ↔ 50 ≤ s ∧ s < 80) ∧
    (statusFor s = .fail ↔ s < 50) := by
  unfold statusFor
  split_ifs with h1 h2 <;> (simp_all; try omega)

/-! ## Claim theorems -/

/-- **C7.** On the entirely empty record (empty strings and sequences,
`loadTime = 500`, `wordCount = 0`), `analyzeTraditionalSeo` returns score
exactly 15, its result entries are typed error/error/error/warning/success,
and the single success entry is precisely the load-time check. -/
theorem traditionalSeo_empty_record_scenario :
    (analyzeTraditionalSeo emptyRecord).score = 15 ∧
    (analyzeTraditionalSeo emptyRecord).results.map (fun r => r.type) =
      [.error, .error, .error, .warning, .success] ∧
    ((analyzeTraditionalSeo emptyRecord).results.all
      (fun r => (r.type == ResultType.success) == (r.title == "Good page load time"))) =
      true := by
  decide

/-- **C8 counterexample.** On the empty record the image alt-text check
appends no entry, so `analyzeTraditionalSeo` returns five results, not six. -/
theorem traditionalSeo_results_not_always_six :
    (analyzeTraditionalSeo emptyRecord).results.length = 5 ∧
    (analyzeTraditionalSeo emptyRecord).results.length ≠ 6 := by
  decide

/-- **C8 (amended).** Five of the six checks of `analyzeTraditionalSeo`
always append exactly one result entry; the image alt-text check appends one
entry exactly when the record has at least one image, so the results list
has six entries when `images` is nonempty and five when it is empty. -/
theorem traditionalSeo_results_length (d : WebsiteData) :
    (analyzeTraditionalSeo d).results.length =
      if d.images.isEmpty then 5 else 6 := by
  unfold analyzeTraditionalSeo
  dsimp only
  rw [apply_ite (Prod.fst : List TraditionalSeoResult × ℕ → List TraditionalSeoResult),
    apply_ite (Prod.fst : List TraditionalSeoResult × ℕ → List TraditionalSeoResult)]
  by_cases h1 : d.images.countP (fun img => !img.hasAlt) > 0
  · have himg : ¬ d.images.isEmpty := by
      simp only [List.isEmpty_iff]
      intro h
      rw [h] at h1
      simp at h1
    simp [h1, himg]
  · by_cases h2 : d.images.length > 0
    · have himg : ¬ d.images.isEmpty := by
        simp only [List.isEmpty_iff]
        intro h
        rw [h] at h2
        simp at h2
      simp [h1, h2, himg]
    · have himg : d.images.isEmpty := by
        simp only [List.isEmpty_iff]
        exact List.length_eq_zero.mp (by omega)
      simp [h1, h2, himg]

/-- **C9.** `generateContentSuggestions` returns the same `missingKeywords`,
`blogTitles`, `contentStructure`, `faqs` and `aiVisibility` for every record
and every score; only `aiImprovements` varies, and it depends solely on the
`aiScore` argument (shown by varying the record while fixing the score, and
by a concrete pair of scores on which it differs). -/
theorem contentSuggestions_static_catalogues (d1 d2 : WebsiteData) (s1 s2 : Int) :
    (generateContentSuggestions d1 s1).missingKeywords =
      (generateContentSuggestions d2 s2).missingKeywords ∧
    (generateContentSuggestions d1 s1).blogTitles =
      (generateContentSuggestions d2 s2).blogTitles ∧
    (generateContentSuggestions d1 s1).contentStructure =
      (generateContentSuggestions d2 s2).contentStructure ∧
    (generateContentSuggestions d1 s1).faqs = (generateContentSuggestions d2 s2).faqs ∧
    (generateContentSuggestions d1 s1).aiVisibility =
      (generateContentSuggestions d2 s2).aiVisibility ∧
    (generateContentSuggestions d1 s1).aiImprovements =
      (generateContentSuggestions d2 s1).aiImprovements ∧
    (generateContentSuggestions emptyRecord 0).aiImprovements ≠
      (generateContentSuggestions emptyRecord 90).aiImprovements := by
  exact ⟨rfl, rfl, rfl, rfl, rfl, rfl, by decide⟩

/-- **C10.** For every record (and any clock year) the Content Freshness
score is at least 5: the stale-year penalty is subtracted before the final
`Math.max(5, Math.min(100, score))` clamp, so the factor can never go
negative. -/
theorem freshness_score_at_least_five (currentYear : Nat) (d : WebsiteData) :
    5 ≤ assessFreshness currentYear d :=
  le_max_left _ _

/-- **C2.** For every record (and any clock year), each of the 12 factor
assessor scores, the traditional SEO score, the GEO score, and the
AI-visibility overall score lies in `[0, 100]` — in particular on the
entirely empty record, since the record is universally quantified. -/
theorem all_scores_in_range (currentYear : Nat) (d : WebsiteData) :
    (0 ≤ assessCrawlability d ∧ assessCrawlability d ≤ 100) ∧
    (0 ≤ assessHtmlStructure d ∧ assessHtmlStructure d ≤ 100) ∧
    (0 ≤ assessContentClarity d ∧ assessContentClarity d ≤ 100) ∧
    (0 ≤ assessScanability d ∧ assessScanability d ≤ 100) ∧
    (0 ≤ assessSummarySections d ∧ assessSummarySections d ≤ 100) ∧
    (0 ≤ assessQaFormat d ∧ assessQaFormat d ≤ 100) ∧
    (0 ≤ assessSchemaMarkup d ∧ assessSchemaMarkup d ≤ 100) ∧
    (0 ≤ assessTrustedEntities d ∧ assessTrustedEntities d ≤ 100) ∧
    (0 ≤ assessDataFormats d ∧ assessDataFormats d ≤ 100) ∧
    (0 ≤ assessReadability d ∧ assessReadability d ≤ 100) ∧
    (0 ≤ assessFreshness currentYear d ∧ assessFreshness currentYear d ≤ 100) ∧
    (0 ≤ assessCredibility d ∧ assessCredibility d ≤ 100) ∧
    (0 ≤ (analyzeTraditionalSeo d).score ∧ (analyzeTraditionalSeo d).score ≤ 100) ∧
    (0 ≤ (analyzeGeo d).score ∧ (analyzeGeo d).score ≤ 100) ∧
    (0 ≤ (analyzeAiPlatformVisibility currentYear d).overallScore ∧
      (analyzeAiPlatformVisibility currentYear d).overallScore ≤ 100) := by
  have hc1 : (10 : ℤ) ≤ assessCrawlability d := le_max_left _ _
  have hc2 : assessCrawlability d ≤ 100 := max_le (by norm_num) (min_le_left _ _)
  have hh : assessHtmlStructure d ≤ 100 := Nat.min_le_left _ _
  have hcl : assessContentClarity d ≤ 100 := Nat.min_le_left _ _
  have hsc : assessScanability d ≤ 100 := Nat.min_le_left _ _
  have hsum : assessSummarySections d ≤ 100 := Nat.min_le_left _ _
  have hqa : assessQaFormat d ≤ 100 := Nat.min_le_left _ _
  have hsch : assessSchemaMarkup d ≤ 100 := Nat.min_le_left _ _
  have hte : assessTrustedEntities d ≤ 100 := Nat.min_le_left _ _
  have hdf : assessDataFormats d ≤ 100 := Nat.min_le_left _ _
  have hrd : assessReadability d ≤ 100 :=
    Nat.max_le.mpr ⟨by norm_num, Nat.min_le_left _ _⟩
  have hf1 : (5 : ℤ) ≤ assessFreshness currentYear d := le_max_left _ _
  have hf2 : assessFreshness currentYear d ≤ 100 :=
    max_le (by norm_num) (min_le_left _ _)
  have hcr : assessCredibility d ≤ 100 :=
    Nat.max_le.mpr ⟨by norm_num, Nat.min_le_left _ _⟩
  have hov : (analyzeAiPlatformVisibility currentYear d).overallScore =
      jsRoundF64 (assessCrawlability d + (assessHtmlStructure d : ℤ) +
        (assessContentClarity d : ℤ) + (assessScanability d : ℤ) +
        (assessSummarySections d : ℤ) + (assessQaFormat d : ℤ) +
        (assessSchemaMarkup d : ℤ) + (assessTrustedEntities d : ℤ) +
        (assessDataFormats d : ℤ) + (assessReadability d : ℤ) +
        assessFreshness currentYear d + (assessCredibility d : ℤ)) := rfl
  have hT0 : (0 : ℤ) ≤ assessCrawlability d + (assessHtmlStructure d : ℤ) +
      (assessContentClarity d : ℤ) + (assessScanability d : ℤ) +
      (assessSummarySections d : ℤ) + (assessQaFormat d : ℤ) +
      (assessSchemaMarkup d : ℤ) + (assessTrustedEntities d : ℤ) +
      (assessDataFormats d : ℤ) + (assessReadability d : ℤ) +
      assessFreshness currentYear d + (assessCredibility d : ℤ) := by omega
  have hcast : assessCrawlability d + (assessHtmlStructure d : ℤ) +
      (assessContentClarity d : ℤ) + (assessScanability d : ℤ) +
      (assessSummarySections d : ℤ) + (assessQaFormat d : ℤ) +
      (assessSchemaMarkup d : ℤ) + (assessTrustedEntities d : ℤ) +
      (assessDataFormats d : ℤ) + (assessReadability d : ℤ) +
      assessFreshness currentYear d + (assessCredibility d : ℤ) =
      (((assessCrawlability d + (assessHtmlStructure d : ℤ) +
      (assessContentClarity d : ℤ) + (assessScanability d : ℤ) +
      (assessSummarySections d : ℤ) + (assessQaFormat d : ℤ) +
      (assessSchemaMarkup d : ℤ) + (assessTrustedEntities d : ℤ) +
      (assessDataFormats d : ℤ) + (assessReadability d : ℤ) +
      assessFreshness currentYear d + (assessCredibility d : ℤ)).toNat : ℕ) : ℤ) :=
    (Int.toNat_of_nonneg hT0).symm
  have hlt : (assessCrawlability d + (assessHtmlStructure d : ℤ) +
      (assessContentClarity d : ℤ) + (assessScanability d : ℤ) +
      (assessSummarySections d : ℤ) + (assessQaFormat d : ℤ) +
      (assessSchemaMarkup d : ℤ) + (assessTrustedEntities d : ℤ) +
      (assessDataFormats d : ℤ) + (assessReadability d : ℤ) +
      assessFreshness currentYear d + (assessCredibility d : ℤ)).toNat < 1201 := by
    omega
  have hc := jsRoundF64_eq_cases _ hlt
  refine ⟨⟨by omega, hc2⟩, ⟨Nat.zero_le _, hh⟩, ⟨Nat.zero_le _, hcl⟩,
    ⟨Nat.zero_le _, hsc⟩, ⟨Nat.zero_le _, hsum⟩, ⟨Nat.zero_le _, hqa⟩,
    ⟨Nat.zero_le _, hsch⟩, ⟨Nat.zero_le _, hte⟩, ⟨Nat.zero_le _, hdf⟩,
    ⟨Nat.zero_le _, hrd⟩, ⟨by omega, hf2⟩, ⟨Nat.zero_le _, hcr⟩,
    ⟨Nat.zero_le _, Nat.min_le_right _ _⟩, ⟨Nat.zero_le _, Nat.min_le_right _ _⟩, ?_⟩
  rw [hov, hcast, hc]
  split_ifs with hdiv <;> constructor <;> omega

/-- **C1 counterexample.** On `cexRecord` the twelve factor scores sum to
342; the source's binary64 `Math.round((342/1200)*100)` yields 28
(`(342/1200)*100 = 28.499999999999996` as a double), while the exact
`round(342/1200*100) = round(28.5)` is 29 — so the overall score is not
exactly the rounded exact mean claimed. -/
theorem overallScore_not_exact_round :
    (analyzeAiPlatformVisibility 2025 cexRecord).overallScore ≠
      jsRound ((((analyzeAiPlatformVisibility 2025 cexRecord).factors.map
        FactorResult.score).sum : ℚ) / 1200 * 100) := by
  have h01 : assessCrawlability cexRecord = 85 := by decide
  have h02 : assessHtmlStructure cexRecord = 60 := by decide
  have h03 : assessContentClarity cexRecord = 15 := by
    have hfl : natRound 0 = 0 := by
      unfold natRound jsRound
      rw [Int.floor_eq_zero_iff.mpr (by norm_num [Set.mem_Ico])]
      rfl
    have e1 : (List.filter (fun w => decide (3 < w.length))
        (splitOnL " " ['A'.toLower, 'b'.toLower, 'c'.toLower, 'd'.toLower, 'e'.toLower,
          'f'.toLower, 'g'.toLower, 'h'.toLower, 'i'.toLower, 'j'.toLower, 'k'.toLower,
          'l'.toLower])) = ["abcdefghijkl".data] := by decide
    have e2 : ("abcdefghijkl".data.isPrefixOf ([] : List Char)) = false := by decide
    simp only [assessContentClarity]
    norm_num [cexRecord, containsL, lowerL, List.tails, e1, e2, hfl,
      List.countP_cons, List.countP_nil]
  have h04 : assessScanability cexRecord = 30 := by
    simp only [assessScanability]
    norm_num [cexRecord, splitOnL, splitOnLAux, trimL, isWs, scanCount, scanCountAux,
      countLines, lineBulletStart, matchCharWs, matchNumDotWs, matchBold, matchItalic,
      matchColonEol, idxOfSub]
  have h05 : assessSummarySections cexRecord = 0 := by decide
  have h06 : assessQaFormat cexRecord = 0 := by decide
  have h07 : assessSchemaMarkup cexRecord = 70 := by decide
  have h08 : assessTrustedEntities cexRecord = 17 := by decide
  have h09 : assessDataFormats cexRecord = 5 := by decide
  have h10 : assessReadability cexRecord = 35 := by decide
  have h11 : assessFreshness 2025 cexRecord = 10 := by decide
  have h12 : assessCredibility cexRecord = 15 := by decide
  have hov : (analyzeAiPlatformVisibility 2025 cexRecord).overallScore =
      jsRoundF64 (assessCrawlability cexRecord + (assessHtmlStructure cexRecord : ℤ) +
        (assessContentClarity cexRecord : ℤ) + (assessScanability cexRecord : ℤ) +
        (assessSummarySections cexRecord : ℤ) + (assessQaFormat cexRecord : ℤ) +
        (assessSchemaMarkup cexRecord : ℤ) + (assessTrustedEntities cexRecord : ℤ) +
        (assessDataFormats cexRecord : ℤ) + (assessReadability cexRecord : ℤ) +
        assessFreshness 2025 cexRecord + (assessCredibility cexRecord : ℤ)) := rfl
  have hsum : ((analyzeAiPlatformVisibility 2025 cexRecord).factors.map
      FactorResult.score).sum = 342 := by
    simp only [analyzeAiPlatformVisibility, List.map_cons, List.map_nil, List.sum_cons,
      List.sum_nil, h01, h02, h03, h04, h05, h06, h07, h08, h09, h10, h11, h12]
    norm_num
  have hval : (analyzeAiPlatformVisibility 2025 cexRecord).overallScore = 28 := by
    rw [hov, h01, h02, h03, h04, h05, h06, h07, h08, h09, h10, h11, h12]
    decide
  have hexact : jsRound (((342 : ℤ) : ℚ) / 1200 * 100) = 29 := by
    have h := jsRound_exact_eq_div 342
    norm_num at h ⊢
    exact h
  rw [hval, hsum, hexact]
  decide

/-- **C1 (amended).** `analyzeAiPlatformVisibility` always returns exactly
12 factors in the fixed catalogue order, and its overall score equals
`Math.round(sum of the 12 factor scores / 1200 * 100)` as the source's
binary64 arithmetic evaluates it; over all reachable totals (`0..1200`)
that value agrees with the exact `round(sum/1200*100)` except at the sums
174, 342, 678 and 690, where it is exactly one less. -/
theorem aiVisibility_catalogue_and_overall_binary64 (currentYear : Nat)
    (d : WebsiteData) :
    (analyzeAiPlatformVisibility currentYear d).factors.map FactorResult.factor =
      ["Public Crawlability", "HTML Structure", "Content Clarity",
       "Content Scannability", "TL;DR & Summary", "Q&A Format", "Schema Markup",
       "Trusted Entities", "Data Extraction", "Readability Level",
       "Content Freshness", "Credibility Markers"] ∧
    (analyzeAiPlatformVisibility currentYear d).factors.length = 12 ∧
    (analyzeAiPlatformVisibility currentYear d).overallScore =
      jsRoundF64 (((analyzeAiPlatformVisibility currentYear d).factors.map
        FactorResult.score).sum) ∧
    (∀ t : ℕ, t < 1201 →
      jsRoundF64 (t : ℤ) =
        (if t = 174 ∨ t = 342 ∨ t = 678 ∨ t = 690 then
          jsRound ((t : ℚ) / 1200 * 100) - 1
        else jsRound ((t : ℚ) / 1200 * 100))) := by
  refine ⟨rfl, rfl, ?_, ?_⟩
  · have hov : (analyzeAiPlatformVisibility currentYear d).overallScore =
        jsRoundF64 (assessCrawlability d + (assessHtmlStructure d : ℤ) +
          (assessContentClarity d : ℤ) + (assessScanability d : ℤ) +
          (assessSummarySections d : ℤ) + (assessQaFormat d : ℤ) +
          (assessSchemaMarkup d : ℤ) + (assessTrustedEntities d : ℤ) +
          (assessDataFormats d : ℤ) + (assessReadability d : ℤ) +
          assessFreshness currentYear d + (assessCredibility d : ℤ)) := rfl
    have hs : ((analyzeAiPlatformVisibility currentYear d).factors.map
        FactorResult.score).sum =
        assessCrawlability d + (assessHtmlStructure d : ℤ) +
          (assessContentClarity d : ℤ) + (assessScanability d : ℤ) +
          (assessSummarySections d : ℤ) + (assessQaFormat d : ℤ) +
          (assessSchemaMarkup d : ℤ) + (assessTrustedEntities d : ℤ) +
          (assessDataFormats d : ℤ) + (assessReadability d : ℤ) +
          assessFreshness currentYear d + (assessCredibility d : ℤ) := by
      simp only [analyzeAiPlatformVisibility, List.map_cons, List.map_nil,
        List.sum_cons, List.sum_nil]
      ring
    rw [hov, hs]
  · intro t ht
    rw [jsRound_exact_eq_div t]
    exact jsRoundF64_eq_cases t ht

/-- Witness for the amended C1: at the reachable total 342 the binary64
overall rounding is one less than the exact rounding. -/
theorem aiVisibility_overall_binary64_witness :
    ((342 : ℕ) < 1201) ∧
    jsRoundF64 ((342 : ℕ) : ℤ) =
      (if (342 : ℕ) = 174 ∨ (342 : ℕ) = 342 ∨ (342 : ℕ) = 678 ∨ (342 : ℕ) = 690 then
        jsRound (((342 : ℕ) : ℚ) / 1200 * 100) - 1
      else jsRound (((342 : ℕ) : ℚ) / 1200 * 100)) :=
  ⟨by norm_num,
    (aiVisibility_catalogue_and_overall_binary64 2025 emptyRecord).2.2.2 342
      (by norm_num)⟩

/-- **C3.** Every factor produced by `analyzeAiPlatformVisibility` has status
`pass` iff its score is at least 80, `warning` iff the score is in
`[50, 80)`, and `fail` iff the score is below 50. -/
theorem factor_status_thresholds (currentYear : Nat) (d : WebsiteData)
    (f : FactorResult)
    (hf : f ∈ (analyzeAiPlatformVisibility currentYear d).factors) :
    (f.status = .pass ↔ 80 ≤ f.score) ∧
    (f.status = .warning ↔ 50 ≤ f.score ∧ f.score < 80) ∧
    (f.status = .fail ↔ f.score < 50) := by
  simp only [analyzeAiPlatformVisibility, List.mem_cons, List.not_mem_nil,
    or_false] at hf
  rcases hf with h | h | h | h | h | h | h | h | h | h | h | h <;> subst h <;>
    exact statusFor_spec _

/-- Witness for C3: the first factor of the assessment of the empty record. -/
theorem factor_status_thresholds_witness :
    ((analyzeAiPlatformVisibility 2025 emptyRecord).factors.headI.status = .pass ↔
      80 ≤ (analyzeAiPlatformVisibility 2025 emptyRecord).factors.headI.score) ∧
    ((analyzeAiPlatformVisibility 2025 emptyRecord).factors.headI.status = .warning ↔
      50 ≤ (analyzeAiPlatformVisibility 2025 emptyRecord).factors.headI.score ∧
      (analyzeAiPlatformVisibility 2025 emptyRecord).factors.headI.score < 80) ∧
    ((analyzeAiPlatformVisibility 2025 emptyRecord).factors.headI.status = .fail ↔
      (analyzeAiPlatformVisibility 2025 emptyRecord).factors.headI.score < 50) :=
  factor_status_thresholds 2025 emptyRecord _ (List.mem_cons_self _ _)

/-- **C4.** `compareWebsites` computes the three diffs as side-B minus
side-A, picks `url2` exactly when the diff-sum is strictly positive (ties
resolve to `url1`), and swapping the inputs negates all three diffs and
flips the better performer whenever the original diff-sum was nonzero. -/
theorem compareWebsites_diffs_and_symmetry (d1 d2 : WebsiteData)
    (r1 r2 : ReportScores) (v1 v2 : AiVisibilityAssessment) :
    (compareWebsites d1 r1 d2 r2 v1 v2).seoScoreDiff = r2.seoScore - r1.seoScore ∧
    (compareWebsites d1 r1 d2 r2 v1 v2).aiScoreDiff = r2.aiScore - r1.aiScore ∧
    (compareWebsites d1 r1 d2 r2 v1 v2).aiVisibilityDiff =
      v2.overallScore - v1.overallScore ∧
    ((compareWebsites d1 r1 d2 r2 v1 v2).betterPerformer = "url2" ↔
      0 < (r2.seoScore - r1.seoScore) + (r2.aiScore - r1.aiScore) +
        (v2.overallScore - v1.overallScore)) ∧
    ((compareWebsites d1 r1 d2 r2 v1 v2).betterPerformer = "url1" ↔
      (r2.seoScore - r1.seoScore) + (r2.aiScore - r1.aiScore) +
        (v2.overallScore - v1.overallScore) ≤ 0) ∧
    (compareWebsites d2 r2 d1 r1 v2 v1).seoScoreDiff =
      -(compareWebsites d1 r1 d2 r2 v1 v2).seoScoreDiff ∧
    (compareWebsites d2 r2 d1 r1 v2 v1).aiScoreDiff =
      -(compareWebsites d1 r1 d2 r2 v1 v2).aiScoreDiff ∧
    (compareWebsites d2 r2 d1 r1 v2 v1).aiVisibilityDiff =
      -(compareWebsites d1 r1 d2 r2 v1 v2).aiVisibilityDiff ∧
    ((r2.seoScore - r1.seoScore) + (r2.aiScore - r1.aiScore) +
        (v2.overallScore - v1.overallScore) ≠ 0 →
      ((compareWebsites d1 r1 d2 r2 v1 v2).betterPerformer = "url1" ↔
        (compareWebsites d2 r2 d1 r1 v2 v1).betterPerformer = "url2") ∧
      ((compareWebsites d1 r1 d2 r2 v1 v2).betterPerformer = "url2" ↔
        (compareWebsites d2 r2 d1 r1 v2 v1).betterPerformer = "url1")) := by
  have h1 : ∀ S : ℤ, ((if S > 0 then ("url2" : String) else "url1") = "url2" ↔ 0 < S) := by
    intro S
    split_ifs with h
    · exact iff_of_true rfl h
    · exact iff_of_false (by decide) h
  have h2 : ∀ S : ℤ, ((if S > 0 then ("url2" : String) else "url1") = "url1" ↔ S ≤ 0) := by
    intro S
    split_ifs with h
    · exact iff_of_false (by decide) (by omega)
    · exact iff_of_true rfl (by omega)
  simp only [compareWebsites]
  refine ⟨trivial, trivial, trivial, h1 _, h2 _, by omega, by omega, by omega, fun hne => ?_⟩
  rw [h1, h2, h1, h2]
  omega

/-- Witness for C4: with SEO scores 0 vs 20 (all other scores equal) the
diff-sum is nonzero and the better performer flips under swapping. -/
theorem compareWebsites_symmetry_witness :
    (((⟨20, 0⟩ : ReportScores).seoScore - (⟨0, 0⟩ : ReportScores).seoScore) +
        ((⟨20, 0⟩ : ReportScores).aiScore - (⟨0, 0⟩ : ReportScores).aiScore) +
        (emptyAssessment.overallScore - emptyAssessment.overallScore) ≠ 0) ∧
    (((compareWebsites emptyRecord ⟨0, 0⟩ emptyRecord ⟨20, 0⟩ emptyAssessment
        emptyAssessment).betterPerformer = "url1" ↔
      (compareWebsites emptyRecord ⟨20, 0⟩ emptyRecord ⟨0, 0⟩ emptyAssessment
        emptyAssessment).betterPerformer = "url2") ∧
    ((compareWebsites emptyRecord ⟨0, 0⟩ emptyRecord ⟨20, 0⟩ emptyAssessment
        emptyAssessment).betterPerformer = "url2" ↔
      (compareWebsites emptyRecord ⟨20, 0⟩ emptyRecord ⟨0, 0⟩ emptyAssessment
        emptyAssessment).betterPerformer = "url1")) :=
  ⟨by decide,
    (compareWebsites_diffs_and_symmetry emptyRecord emptyRecord ⟨0, 0⟩ ⟨20, 0⟩
      emptyAssessment emptyAssessment).2.2.2.2.2.2.2.2 (by decide)⟩

set_option maxHeartbeats 1600000 in
/-- **C5.** The comparator's `keyDifferences` list is exactly: the two SEO
entries iff `|seoScoreDiff| > 10`, then the two AI-visibility entries
(factor scores looked up by name, `"Not assessed"` when absent) iff
`|aiVisibilityDiff| > 15`, then the two GEO entries iff `|aiScoreDiff| > 10`,
in that order; consequently each category contributes exactly two entries
when its threshold is exceeded and none otherwise. -/
theorem compareWebsites_keyDifferences_spec (d1 d2 : WebsiteData)
    (r1 r2 : ReportScores) (v1 v2 : AiVisibilityAssessment) :
    (compareWebsites d1 r1 d2 r2 v1 v2).keyDifferences =
      (if jsAbs (r2.seoScore - r1.seoScore) > 10 then
        [{ category := "seo", aspect := "Title Tag Optimization",
           url1Value := toString d1.title.length ++ " characters",
           url2Value := toString d2.title.length ++ " characters",
           recommendation :=
             if r2.seoScore - r1.seoScore > 0 then
               "URL2 has better title length (50-60 chars ideal)"
             else "URL1 has better title length optimization" },
         { category := "seo", aspect := "Meta Description",
           url1Value :=
             if d1.metaDescription != "" then
               toString d1.metaDescription.length ++ " chars"
             else "Missing",
           url2Value :=
             if d2.metaDescription != "" then
               toString d2.metaDescription.length ++ " chars"
             else "Missing",
           recommendation := "Meta description should be 150-160 characters for best results" }]
      else []) ++
      (if jsAbs (v2.overallScore - v1.overallScore) > 15 then
        [{ category := "visibility", aspect := "AI Platform Summary",
           url1Value :=
             match v1.factors.find? (fun f => f.factor == "TL;DR & Summary") with
             | some f => toString f.score ++ "/100"
             | none => "Not assessed",
           url2Value :=
             match v2.factors.find? (fun f => f.factor == "TL;DR & Summary") with
             | some f => toString f.score ++ "/100"
             | none => "Not assessed",
           recommendation := "Add TL;DR sections and clear summaries for better AI visibility" },
         { category := "visibility", aspect := "Structured Data Implementation",
           url1Value :=
             match v1.factors.find? (fun f => f.factor == "Schema Markup") with
             | some f => toString f.score ++ "/100"
             | none => "Not assessed",
           url2Value :=
             match v2.factors.find? (fun f => f.factor == "Schema Markup") with
             | some f => toString f.score ++ "/100"
             | none => "Not assessed",
           recommendation := "Implement FAQPage and Article schema markup for AI platforms" }]
      else []) ++
      (if jsAbs (r2.aiScore - r1.aiScore) > 10 then
        [{ category := "ai", aspect := "Content Structure",
           url1Value :=
             if d1.headings.any (fun h => h.level == 2) then "Has H2 structure"
             else "Poor heading structure",
           url2Value :=
             if d2.headings.any (fun h => h.level == 2) then "Has H2 structure"
             else "Poor heading structure",
           recommendation := "Use H2/H3 headings for better AI content parsing" },
         { category := "ai", aspect := "Schema Markup",
           url1Value :=
             if d1.hasSchema then toString d1.schemaTypes.length ++ " types" else "None",
           url2Value :=
             if d2.hasSchema then toString d2.schemaTypes.length ++ " types" else "None",
           recommendation := "Implement FAQ and Article schema for AI platforms" }]
      else []) ∧
    ((compareWebsites d1 r1 d2 r2 v1 v2).keyDifferences.countP
        (fun kd => decide (kd.category = "seo"))) =
      (if jsAbs (r2.seoScore - r1.seoScore) > 10 then 2 else 0) ∧
    ((compareWebsites d1 r1 d2 r2 v1 v2).keyDifferences.countP
        (fun kd => decide (kd.category = "visibility"))) =
      (if jsAbs (v2.overallScore - v1.overallScore) > 15 then 2 else 0) ∧
    ((compareWebsites d1 r1 d2 r2 v1 v2).keyDifferences.countP
        (fun kd => decide (kd.category = "ai"))) =
      (if jsAbs (r2.aiScore - r1.aiScore) > 10 then 2 else 0) := by
  constructor
  · rfl
  refine ⟨?_, ?_, ?_⟩ <;> (simp only [compareWebsites]; split_ifs <;> rfl)

/-- **C6.** The AI-visibility recommendation list is: one high-priority
template per failing factor among exactly TL;DR & Summary, Q&A Format,
Schema Markup and Content Clarity (other failing factors emit nothing), in
factor order; then one medium-priority template per warning factor among
exactly HTML Structure, Content Scannability and Readability Level; then a
freshness tip when `overallScore < 70` and a statistics tip when
`overallScore < 50`; truncated to the first 8 entries. -/
theorem aiVisibilityRecommendations_spec (factors : List FactorResult)
    (overallScore : Int) :
    generateAiVisibilityRecommendations factors overallScore =
      ((factors.map (fun f =>
          if f.status = .fail then
            if f.factor = "TL;DR & Summary" then [recTldrFail]
            else if f.factor = "Q&A Format" then [recQaFail]
            else if f.factor = "Schema Markup" then [recSchemaFail]
            else if f.factor = "Content Clarity" then [recClarityFail]
            else []
          else [])).flatten ++
       (factors.map (fun f =>
          if f.status = .warning then
            if f.factor = "HTML Structure" then [recHtmlWarn]
            else if f.factor = "Content Scannability" then [recScanWarn]
            else if f.factor = "Readability Level" then [recReadWarn]
            else []
          else [])).flatten ++
       (if overallScore < 70 then [recFreshGeneric] else []) ++
       (if overallScore < 50 then [recStatsGeneric] else [])).take 8 ∧
    (generateAiVisibilityRecommendations factors overallScore).length ≤ 8 ∧
    recTldrFail.priority = .high ∧ recQaFail.priority = .high ∧
    recSchemaFail.priority = .high ∧ recClarityFail.priority = .high ∧
    recHtmlWarn.priority = .medium ∧ recScanWarn.priority = .medium ∧
    recReadWarn.priority = .medium ∧ recFreshGeneric.priority = .medium ∧
    recStatsGeneric.priority = .high := by
  refine ⟨rfl, ?_, rfl, rfl, rfl, rfl, rfl, rfl, rfl, rfl, rfl⟩
  show (List.take 8 _).length ≤ 8
  rw [List.length_take]
  exact min_le_left _ _
